import Mathlib

/-!
Shallow embedding of the multi-domain retrieval-and-synthesis orchestration
of `virtual_sme_solution.py` (class `VirtualSMESystem` and its FastAPI
endpoints).  External capabilities -- the per-domain similarity search, the
per-domain completion call, the synthesis completion call and the audit-log
commit -- are modelled as oracle functions supplied to the orchestrator, and
the SQLite/Chroma state is modelled explicitly, so every orchestration step
of the Python source (domain selection, per-domain retrieval with per-domain
exception handling, the zero-hit early exit, pooled context construction,
per-domain generation, synthesis, confidence scoring, audit logging and
response assembly) is an executable Lean function.
-/

/-- The `BankingDomain` enumeration (source lines 50-56), in declaration
order, which is also the iteration order of `list(BankingDomain)`. -/
inductive BankingDomain where
  | distribution_finance
  | channel_finance
  | global_trade_finance
  | risk_management
  | compliance
  | customer_service
deriving DecidableEq, Repr

namespace BankingDomain

/-- The `BankingDomain.<member>.value` string payload of each enum member, the string payload of each enum member. -/
def value : BankingDomain → String
  | .distribution_finance => "distribution_finance"
  | .channel_finance => "channel_finance"
  | .global_trade_finance => "global_trade_finance"
  | .risk_management => "risk_management"
  | .compliance => "compliance"
  | .customer_service => "customer_service"

/-- Evaluation of `resp['domain'].value.replace('_', ' ').title()` as used when formatting
per-domain responses for the synthesis prompt (source line 426), evaluated
for each member of the closed enumeration. -/
def titleName : BankingDomain → String
  | .distribution_finance => "Distribution Finance"
  | .channel_finance => "Channel Finance"
  | .global_trade_finance => "Global Trade Finance"
  | .risk_management => "Risk Management"
  | .compliance => "Compliance"
  | .customer_service => "Customer Service"

end BankingDomain

/-- The list `list(BankingDomain)`: all members in declaration order. -/
def allDomains : List BankingDomain :=
  [.distribution_finance, .channel_finance, .global_trade_finance,
   .risk_management, .compliance, .customer_service]

/-- Evaluation of `BankingDomain(s)` for a string `s`: returns the member whose `value`
is `s`, or `none` where CPython raises
`ValueError: '<s>' is not a valid BankingDomain`. -/
def parseDomain (s : String) : Option BankingDomain :=
  allDomains.find? (fun d => d.value = s)

/-- A document returned by `similarity_search` (a langchain `Document`):
its `page_content` and the `title` entry of its metadata dict, when present
(the query path reads only `doc.metadata.get('title', 'Unknown')` and
`doc.page_content`). -/
structure Doc where
  page_content : String
  title : Option String
deriving DecidableEq, Repr

/-- A vector-store entry as written by `add_documents` during ingestion
(source lines 291-301): the document content plus the metadata recorded
with it. -/
structure VDoc where
  page_content : String
  title : String
  source : String
  domain : String
deriving DecidableEq, Repr

/-- A row of the `documents` table (`DocumentModel`, source lines 79-88).
Note: the constructor call at lines 271-279 passes `metadata=...`, which is
not the mapped column `document_metadata`, so the persisted
`document_metadata` column is left NULL; we record it as `none`. -/
structure DocRow where
  id : String
  title : String
  content : String
  domain : String
  source : String
  upload_date : Nat
  document_metadata : Option String
deriving DecidableEq, Repr

/-- A row of the `query_logs` audit table (`QueryLog`, source lines 90-99).
`domains_consulted` holds the list of domain value strings that
`json.dumps([d.value for d in domains_consulted])` serialises, and
`confidence` the number that `str(confidence)` serialises. -/
structure LogRow where
  user_id : String
  query : String
  response : String
  domains_consulted : List String
  confidence : ℚ
deriving DecidableEq, Repr

/-- The mutable state of a `VirtualSMESystem` instance that the claims
observe: the `documents` table, the `query_logs` audit table, and the
per-domain Chroma stores (`self.vector_stores`, a dict from domain to the
list of vectors added to that partition; `none` means no store has been
created for that domain yet). -/
structure SystemState where
  documents : List DocRow
  queryLogs : List LogRow
  stores : BankingDomain → Option (List VDoc)

/-- The vectors currently searchable in a domain's partition (empty when the
partition was never created or holds no vectors). -/
def vectorsOf (S : SystemState) (d : BankingDomain) : List VDoc :=
  (S.stores d).getD []

/-- The external capabilities the orchestrator delegates to, as oracles:
`search d q` is the outcome of `self.vector_stores[d].similarity_search(q, k=5)`
(`Except.error ()` when the call throws); `gen d ctx q` is the outcome of the
per-domain `LLMChain.run({"context": ctx, "question": q})`; `synth fr q` is
the outcome of the synthesis `LLMChain.run({"responses": fr, "question": q})`;
`logOk` is whether the audit-log insert+commit succeeds. -/
structure Oracles where
  search : BankingDomain → String → Except Unit (List Doc)
  gen : BankingDomain → String → String → Except Unit String
  synth : String → String → Except Unit String
  logOk : Bool

/-- One per-domain completion call issued by the generation loop, recording
the `context` and `question` values interpolated into that domain's prompt
template. -/
structure GenCall where
  domain : BankingDomain
  context : String
  question : String
deriving DecidableEq, Repr

/-- The observable calls made while answering one query: the per-domain
generation calls in loop order, and how many synthesis completion calls
were issued. -/
structure QueryTrace where
  genCalls : List GenCall
  synthCalls : Nat
deriving DecidableEq, Repr

/-- The `QueryResponse` dataclass (source lines 68-74); timestamps are
modelled as the `now` value passed to the orchestrator. -/
structure QueryResponse where
  answer : String
  sources : List String
  confidence : ℚ
  domains_consulted : List BankingDomain
  timestamp : Nat
deriving DecidableEq, Repr

/-- Domain selection `domains_to_search = preferred_domains or list(BankingDomain)`
(source line 317): Python `or` falls through to all domains when
`preferred_domains` is `None` or the empty list. -/
def selectDomains (preferred_domains : Option (List BankingDomain)) :
    List BankingDomain :=
  match preferred_domains with
  | none => allDomains
  | some ds => if ds.isEmpty then allDomains else ds

/-- The retrieval loop (source lines 323-336): for each selected domain with
an initialized store, run `similarity_search`; append its documents to
`all_relevant_docs` and the domain to `domains_consulted` only when the
result is non-empty; a thrown search is caught and contributes nothing. -/
def retrieveDocs (S : SystemState) (O : Oracles) (query : String) :
    List BankingDomain → List Doc × List BankingDomain
  | [] => ([], [])
  | d :: rest =>
    let tail := retrieveDocs S O query rest
    match S.stores d with
    | some _ =>
      match O.search d query with
      | .ok docs => if docs = [] then tail else (docs ++ tail.1, d :: tail.2)
      | .error _ => tail
    | none => tail

/-- The `context_text` construction (source lines 348-351): the "Source: <title>\n<content>"
blocks of the given documents joined by blank lines. -/
def contextText (docs : List Doc) : String :=
  String.intercalate "\n\n"
    (docs.map (fun doc => "Source: " ++ doc.title.getD "Unknown" ++ "\n" ++ doc.page_content))

/-- The generation loop (source lines 354-374): one completion call per
consulted domain (every domain has a template in `self.domain_experts`, so
the `domain in self.domain_experts` test always passes), each receiving the
same `context_text` and `query`; a thrown call is caught and that domain is
dropped from `responses`.  Returns the successful `(domain, response)` pairs
and the trace of calls issued, both in loop order. -/
def runGeneration (O : Oracles) (query context_text : String) :
    List BankingDomain → List (BankingDomain × String) × List GenCall
  | [] => ([], [])
  | d :: rest =>
    let tail := runGeneration O query context_text rest
    match O.gen d context_text query with
    | .ok resp => ((d, resp) :: tail.1, ⟨d, context_text, query⟩ :: tail.2)
    | .error _ => (tail.1, ⟨d, context_text, query⟩ :: tail.2)

/-- The `formatted_responses` construction (source lines 425-428): each per-domain response
labelled by its title-cased domain name, joined by blank lines. -/
def formatResponses (responses : List (BankingDomain × String)) : String :=
  String.intercalate "\n\n"
    (responses.map (fun r => "Domain: " ++ r.1.titleName ++ "\nResponse: " ++ r.2))

/-- The method `_combine_domain_responses` (source lines 396-442): with exactly one
response, return it verbatim with no model call; otherwise issue one
synthesis completion call, falling back to joining the responses with blank
lines when that call throws.  Returns the combined answer and the number of
synthesis calls issued. -/
def combine_domain_responses (synth : String → String → Except Unit String)
    (responses : List (BankingDomain × String)) (original_query : String) :
    String × Nat :=
  match responses with
  | [r] => (r.2, 0)
  | rs =>
    match synth (formatResponses rs) original_query with
    | .ok s => (s, 1)
    | .error _ => (String.intercalate "\n\n" (rs.map Prod.snd), 1)

/-- The method `_log_query` (source lines 444-460): append one audit row and commit;
a failure is caught and leaves the state unchanged. -/
def log_query (S : SystemState) (O : Oracles) (user_id query response : String)
    (domains_consulted : List BankingDomain) (confidence : ℚ) : SystemState :=
  if O.logOk then
    { S with queryLogs := S.queryLogs ++
        [{ user_id := user_id, query := query, response := response,
           domains_consulted := domains_consulted.map BankingDomain.value,
           confidence := confidence }] }
  else S

/-- The fixed zero-hit fallback answer (source line 340). -/
def noInfoAnswer : String :=
  "I don't have sufficient information to answer your question. Please try rephrasing or contact a human expert."

/-- The fixed all-generations-failed fallback answer (source line 380). -/
def noGenAnswer : String :=
  "I apologize, but I'm unable to generate a response at this time."

/-- The confidence heuristic of source line 383:
`min(0.9, len(all_relevant_docs) * 0.1 + len(domains_consulted) * 0.1)`. -/
def confFormula (hits doms : ℕ) : ℚ :=
  min (9/10) ((hits : ℚ) * (1/10) + (doms : ℚ) * (1/10))

/-- The method `VirtualSMESystem.query_knowledge_base` (source lines 311-394).  Returns
the `QueryResponse`, the post-call system state, and the trace of completion
calls issued.  The `context` parameter is accepted (source line 313) exactly
as in the source, which never reads it. -/
def query_knowledge_base (S : SystemState) (O : Oracles)
    (query user_id : String)
    (preferred_domains : Option (List BankingDomain))
    (context : Option String) (now : Nat) :
    QueryResponse × SystemState × QueryTrace :=
  let retrieved := retrieveDocs S O query (selectDomains preferred_domains)
  if retrieved.1 = [] then
    ({ answer := noInfoAnswer, sources := [], confidence := 0,
       domains_consulted := [], timestamp := now }, S, ⟨[], 0⟩)
  else
    let context_text := contextText retrieved.1
    let genned := runGeneration O query context_text retrieved.2
    let combined :=
      if genned.1 = [] then (noGenAnswer, 0)
      else combine_domain_responses O.synth genned.1 query
    let confidence : ℚ :=
      min (9/10) ((retrieved.1.length : ℚ) * (1/10) + (retrieved.2.length : ℚ) * (1/10))
    let loggedS := log_query S O user_id query combined.1 retrieved.2 confidence
    ({ answer := combined.1,
       sources := retrieved.1.map (fun doc => doc.title.getD "Unknown"),
       confidence := confidence,
       domains_consulted := retrieved.2,
       timestamp := now }, loggedS, ⟨genned.2, combined.2⟩)

/-- The `KnowledgeDocument` dataclass (source lines 58-66). -/
structure KnowledgeDocument where
  id : String
  title : String
  content : String
  domain : BankingDomain
  source : String
  upload_date : Nat
  metadata : List (String × String)
deriving DecidableEq, Repr

/-- The `DocumentModel` row written for a document at source lines 271-279
(the `metadata=` keyword does not populate the `document_metadata` column,
which stays NULL). -/
def docRowOf (document : KnowledgeDocument) : DocRow :=
  { id := document.id, title := document.title, content := document.content,
    domain := document.domain.value, source := document.source,
    upload_date := document.upload_date, document_metadata := none }

/-- The vector-store entry written for a document at source lines 291-301. -/
def vdocOf (document : KnowledgeDocument) : VDoc :=
  { page_content := document.content, title := document.title,
    source := document.source, domain := document.domain.value }

/-- Lazy creation of a domain's Chroma partition (source lines 285-289):
create an empty store for the domain when none exists. -/
def ensureStore (S : SystemState) (d : BankingDomain) : SystemState :=
  match S.stores d with
  | some _ => S
  | none => { S with stores := fun d2 => if d2 = d then some [] else S.stores d2 }

/-- Addition via `add_documents` on a domain's store (source lines 291-301). -/
def addToStore (S : SystemState) (document : KnowledgeDocument) : SystemState :=
  { S with stores := fun d =>
      if d = document.domain then some ((S.stores d).getD [] ++ [vdocOf document])
      else S.stores d }

/-- The method `VirtualSMESystem.add_knowledge_document` (source lines 267-309):
insert the row and commit, then ensure the domain's store exists and add the
document to it.  `commitOk` models whether the database add+commit raises;
`indexOk` models whether the vector-store add raises.  On any exception the
handler rolls the session back and returns `False`; a rollback issued after
a successful commit does not undo the committed row. -/
def add_knowledge_document (S : SystemState) (commitOk indexOk : Bool)
    (document : KnowledgeDocument) : Bool × SystemState :=
  if commitOk then
    let committed : SystemState := { S with documents := S.documents ++ [docRowOf document] }
    let withStore := ensureStore committed document.domain
    if indexOk then (true, addToStore withStore document)
    else (false, withStore)
  else (false, S)

/-- The `POST /documents` request body (`DocumentUploadRequest`,
source lines 115-120). -/
structure DocumentUploadRequest where
  title : String
  content : String
  domain : String
  source : String
  metadata : Option (List (String × String))
deriving DecidableEq, Repr

/-- The `POST /documents` endpoint `add_document` (source lines 545-582):
`BankingDomain(request.domain)` is evaluated while building the
`KnowledgeDocument`, before `add_knowledge_document` runs, and an invalid
domain string raises `ValueError`, answered with HTTP 400 and the CPython
enum message; any later failure (including the `success == False` branch,
whose inner `HTTPException` is caught by the generic handler) is answered
with HTTP 500.  Returns `(status code, detail or message)` and the
post-call state. -/
def add_document (S : SystemState) (commitOk indexOk : Bool)
    (request : DocumentUploadRequest) (now : Nat) :
    (Nat × String) × SystemState :=
  match parseDomain request.domain with
  | none =>
    ((400, "Invalid domain: '" ++ request.domain ++ "' is not a valid BankingDomain"), S)
  | some d =>
    let document : KnowledgeDocument :=
      { id := "doc_" ++ toString now, title := request.title,
        content := request.content, domain := d, source := request.source,
        upload_date := now, metadata := request.metadata.getD [] }
    match add_knowledge_document S commitOk indexOk document with
    | (true, S2) => ((200, "Document added successfully"), S2)
    | (false, S2) => ((500, "Error adding document"), S2)

/-- A fresh system: no documents, no audit rows, no store partitions. -/
def emptyState : SystemState :=
  { documents := [], queryLogs := [], stores := fun _ => none }

/-- A system whose distribution-finance and compliance partitions exist. -/
def twoDomState : SystemState :=
  { documents := [], queryLogs := [],
    stores := fun d => match d with
      | .distribution_finance => some []
      | .compliance => some []
      | _ => none }

/-- A concrete distribution-finance retrieval hit. -/
def dfDoc : Doc :=
  { page_content := "Supply chain financing provides working capital.",
    title := some "DF Guide" }

/-- A concrete compliance retrieval hit. -/
def coDoc : Doc :=
  { page_content := "KYC checks are mandatory for onboarding.",
    title := some "KYC Note" }

/-- Oracles under which the two initialized domains return one hit each and
every completion call and audit commit succeeds. -/
def twoDomOracles : Oracles :=
  { search := fun d _ => match d with
      | .distribution_finance => .ok [dfDoc]
      | .compliance => .ok [coDoc]
      | _ => .ok []
    gen := fun d _ _ => .ok ("answer from " ++ d.value)
    synth := fun _ _ => .ok "synthesized answer"
    logOk := true }





/-- Every generation call issued by the loop interpolates exactly the
`context_text` and `query` it was given. -/
theorem runGeneration_call_shape (O : Oracles) (q ctx : String) :
    ∀ doms : List BankingDomain, ∀ call ∈ (runGeneration O q ctx doms).2,
      call.context = ctx ∧ call.question = q := by
  intro doms
  induction doms with
  | nil => intro call hc; simp [runGeneration] at hc
  | cons d rest ih =>
    intro call hc
    simp only [runGeneration] at hc
    cases hgen : O.gen d ctx q with
    | ok r =>
      rw [hgen] at hc
      simp only [List.mem_cons] at hc
      rcases hc with rfl | hc
      · exact ⟨rfl, rfl⟩
      · exact ih call hc
    | error e =>
      rw [hgen] at hc
      simp only [List.mem_cons] at hc
      rcases hc with rfl | hc
      · exact ⟨rfl, rfl⟩
      · exact ih call hc

/-- When every per-domain completion call throws, the loop collects no
successful responses. -/
theorem runGeneration_all_fail (O : Oracles) (q ctx : String)
    (hgen : ∀ d, O.gen d ctx q = Except.error ()) :
    ∀ doms : List BankingDomain, (runGeneration O q ctx doms).1 = [] := by
  intro doms
  induction doms with
  | nil => rfl
  | cons d rest ih => simp [runGeneration, hgen d, ih]

/-- When every domain's search returns no documents, retrieval collects no
documents and consults no domain. -/
theorem retrieveDocs_all_nil (S : SystemState) (O : Oracles) (q : String)
    (hsearch : ∀ d, O.search d q = Except.ok []) :
    ∀ doms : List BankingDomain, retrieveDocs S O q doms = ([], []) := by
  intro doms
  induction doms with
  | nil => rfl
  | cons d rest ih =>
    cases hs : S.stores d <;> simp [retrieveDocs, hs, hsearch d, ih]

/-- A domain whose search throws or returns no documents is never added to
the consulted list. -/
theorem retrieveDocs_not_mem (S : SystemState) (O : Oracles) (q : String)
    (d : BankingDomain)
    (hfail : O.search d q = Except.error () ∨ O.search d q = Except.ok []) :
    ∀ doms : List BankingDomain, d ∉ (retrieveDocs S O q doms).2 := by
  intro doms
  induction doms with
  | nil => simp [retrieveDocs]
  | cons d2 rest ih =>
    by_cases hd : d2 = d
    · subst hd
      rcases hfail with h | h <;>
        cases hs : S.stores d2 <;> simp [retrieveDocs, hs, h, ih]
    · cases hs : S.stores d2 with
      | none => simpa [retrieveDocs, hs] using ih
      | some v =>
        cases hsr : O.search d2 q with
        | ok docs =>
          by_cases hdocs : docs = []
          · simpa [retrieveDocs, hs, hsr, hdocs] using ih
          · simp only [retrieveDocs, hs, hsr, if_neg hdocs]
            intro hc
            rcases List.mem_cons.mp hc with h1 | h1
            · exact hd h1.symm
            · exact ih h1
        | error e => simpa [retrieveDocs, hs, hsr] using ih

/-- A domain whose search throws or returns no documents contributes
nothing: retrieval over any selection equals retrieval over the selection
with that domain removed. -/
theorem retrieveDocs_filter (S : SystemState) (O : Oracles) (q : String)
    (d : BankingDomain)
    (hfail : O.search d q = Except.error () ∨ O.search d q = Except.ok []) :
    ∀ doms : List BankingDomain,
      retrieveDocs S O q doms
        = retrieveDocs S O q (doms.filter (fun x => x ≠ d)) := by
  intro doms
  induction doms with
  | nil => rfl
  | cons d2 rest ih =>
    by_cases hd : d2 = d
    · subst hd
      have hfilter : (d2 :: rest).filter (fun x => x ≠ d2)
          = rest.filter (fun x => x ≠ d2) := by simp
      rw [hfilter]
      rcases hfail with h | h <;>
        cases hs : S.stores d2 <;> simp [retrieveDocs, hs, h, ih]
    · have hfilter : (d2 :: rest).filter (fun x => x ≠ d)
          = d2 :: rest.filter (fun x => x ≠ d) := by simp [hd]
      rw [hfilter]
      cases hs : S.stores d2 <;>
        cases hsr : O.search d2 q <;>
          simp [retrieveDocs, hs, hsr, ih]

/-- Oracles under which every search succeeds with no documents and every
completion call and audit commit succeeds. -/
def noHitOracles : Oracles :=
  { search := fun _ _ => .ok []
    gen := fun d _ _ => .ok ("answer from " ++ d.value)
    synth := fun _ _ => .ok "synthesized answer"
    logOk := true }

/-- Oracles under which the two initialized domains return one hit each but
every per-domain completion call throws; audit commits succeed. -/
def genFailOracles : Oracles :=
  { search := fun d _ => match d with
      | .distribution_finance => .ok [dfDoc]
      | .compliance => .ok [coDoc]
      | _ => .ok []
    gen := fun _ _ _ => .error ()
    synth := fun _ _ => .error ()
    logOk := true }

/-- Oracles under which the distribution-finance search returns one hit, the
compliance search throws, and everything else succeeds. -/
def searchFailOracles : Oracles :=
  { search := fun d _ => match d with
      | .distribution_finance => .ok [dfDoc]
      | .compliance => .error ()
      | _ => .ok []
    gen := fun d _ _ => .ok ("answer from " ++ d.value)
    synth := fun _ _ => .ok "synthesized answer"
    logOk := true }

/-- C1, as stated, is false: on the zero-hit fallback path
`query_knowledge_base` returns before `_log_query` runs, so the audit log
row count does not increase.  Concretely, querying a system with no store
partitions (zero hits everywhere, audit commit available) leaves the audit
log at its prior length instead of adding one row. -/
theorem C1_counterexample :
    ¬ (query_knowledge_base emptyState twoDomOracles
          "What is a Letter of Credit?" "u1" none none 0).2.1.queryLogs.length
        = emptyState.queryLogs.length + 1 := by decide

/-- C1 (amended): the audit log row count increases by exactly one per
`query_knowledge_base` invocation in which at least one hit was retrieved
and the audit insert succeeds; on the zero-hit fallback path the early
return performs no audit logging and the row count is unchanged. -/
theorem C1_audit_log (S : SystemState) (O : Oracles) (q u : String)
    (pd : Option (List BankingDomain)) (c : Option String) (now : Nat) :
    ((retrieveDocs S O q (selectDomains pd)).1 ≠ [] → O.logOk = true →
      (query_knowledge_base S O q u pd c now).2.1.queryLogs.length
        = S.queryLogs.length + 1)
    ∧ ((retrieveDocs S O q (selectDomains pd)).1 = [] →
      (query_knowledge_base S O q u pd c now).2.1.queryLogs.length
        = S.queryLogs.length) := by
  constructor
  · intro hne hlog
    simp only [query_knowledge_base]
    rw [if_neg hne]
    simp [log_query, hlog]
  · intro hnil
    simp only [query_knowledge_base]
    rw [if_pos hnil]

/-- Witness for the amended C1: a query that retrieves hits from two
domains appends exactly one audit row to a previously empty log. -/
theorem C1_audit_log_witness :
    (query_knowledge_base twoDomState twoDomOracles "q" "u" none none 0).2.1.queryLogs.length
      = twoDomState.queryLogs.length + 1 :=
  (C1_audit_log twoDomState twoDomOracles "q" "u" none none 0).1 (by decide) rfl

/-- C2, as stated, is false: the source builds one `context_text` from the
pooled `all_relevant_docs` of every consulted domain and passes that same
text to every per-domain completion call.  Concretely, with two domains
contributing one distinct hit each, the two per-domain calls do not receive
the contexts built from each domain's own hits. -/
theorem C2_counterexample :
    ((query_knowledge_base twoDomState twoDomOracles "q" "u" none none 0).2.2.genCalls.map
        GenCall.context)
      ≠ [contextText [dfDoc], contextText [coDoc]] := by decide

/-- C2 (amended): every per-domain generation call receives the same pooled
context text, built from the hits of all consulted domains in retrieval
order (not a context restricted to that domain's own hits), together with
the original question. -/
theorem C2_pooled_context (S : SystemState) (O : Oracles) (q u : String)
    (pd : Option (List BankingDomain)) (c : Option String) (now : Nat) :
    ∀ call ∈ (query_knowledge_base S O q u pd c now).2.2.genCalls,
      call.context = contextText (retrieveDocs S O q (selectDomains pd)).1
      ∧ call.question = q := by
  intro call hc
  by_cases hnil : (retrieveDocs S O q (selectDomains pd)).1 = []
  · simp only [query_knowledge_base, if_pos hnil] at hc
    simp at hc
  · simp only [query_knowledge_base, if_neg hnil] at hc
    exact runGeneration_call_shape O q _ _ call hc

/-- Witness for the amended C2: in the two-domain run the first per-domain
call's context is the pooled context of both domains' hits. -/
theorem C2_pooled_context_witness :
    GenCall.context ⟨.distribution_finance, contextText [dfDoc, coDoc], "q"⟩
      = contextText (retrieveDocs twoDomState twoDomOracles "q" (selectDomains none)).1
    ∧ GenCall.question ⟨.distribution_finance, contextText [dfDoc, coDoc], "q"⟩ = "q" :=
  C2_pooled_context twoDomState twoDomOracles "q" "u" none none 0
    ⟨.distribution_finance, contextText [dfDoc, coDoc], "q"⟩ (by decide)

/-- C3: on every query that reaches confidence scoring (at least one hit was
retrieved), the returned confidence is
`min(0.9, 0.1 * total hits + 0.1 * domains consulted)`, and for every hit
count and domain count that formula lies between 0 and 0.9 inclusive. -/
theorem C3_confidence (S : SystemState) (O : Oracles) (q u : String)
    (pd : Option (List BankingDomain)) (c : Option String) (now : Nat)
    (hne : (retrieveDocs S O q (selectDomains pd)).1 ≠ []) :
    (query_knowledge_base S O q u pd c now).1.confidence
      = confFormula (retrieveDocs S O q (selectDomains pd)).1.length
          (retrieveDocs S O q (selectDomains pd)).2.length
    ∧ ∀ hits doms : ℕ, 0 ≤ confFormula hits doms ∧ confFormula hits doms ≤ 9/10 := by
  constructor
  · simp only [query_knowledge_base]
    rw [if_neg hne]
    rfl
  · intro hits doms
    constructor
    · apply le_min
      · norm_num
      · positivity
    · exact min_le_left _ _

/-- Witness for C3: the two-domain run (two hits, two domains) returns
confidence `min(0.9, 0.4) = 0.4`, inside the clamp. -/
theorem C3_confidence_witness :
    (query_knowledge_base twoDomState twoDomOracles "q" "u" none none 0).1.confidence
      = confFormula 2 2
    ∧ 0 ≤ confFormula 5 1 ∧ confFormula 5 1 ≤ 9/10 := by
  have h := C3_confidence twoDomState twoDomOracles "q" "u" none none 0 (by decide)
  refine ⟨?_, h.2 5 1⟩
  have h1 : (retrieveDocs twoDomState twoDomOracles "q" (selectDomains none)).1.length = 2 := by
    decide
  have h2 : (retrieveDocs twoDomState twoDomOracles "q" (selectDomains none)).2.length = 2 := by
    decide
  rw [h.1, h1, h2]

/-- C4: given a non-empty response set, `_combine_domain_responses` issues
the synthesis completion call if and only if strictly more than one domain
answered; with exactly one response it returns that answer verbatim with no
synthesis call; and when the synthesis call throws, the answer falls back to
joining the per-domain answers with blank lines instead of failing. -/
theorem C4_synthesis (synth : String → String → Except Unit String)
    (responses : List (BankingDomain × String)) (q : String)
    (hne : responses ≠ []) :
    ((combine_domain_responses synth responses q).2 = 1 ↔ 1 < responses.length)
    ∧ (∀ r, responses = [r] → combine_domain_responses synth responses q = (r.2, 0))
    ∧ (1 < responses.length → synth (formatResponses responses) q = Except.error () →
        (combine_domain_responses synth responses q).1
          = String.intercalate "\n\n" (responses.map Prod.snd)) := by
  match responses with
  | [] => exact absurd rfl hne
  | [r] =>
    refine ⟨?_, ?_, ?_⟩
    · simp [combine_domain_responses]
    · intro r2 hr
      cases hr
      rfl
    · intro hlen
      simp at hlen
  | r1 :: r2 :: rs =>
    have hred : combine_domain_responses synth (r1 :: r2 :: rs) q
        = match synth (formatResponses (r1 :: r2 :: rs)) q with
          | .ok s => (s, 1)
          | .error _ =>
            (String.intercalate "\n\n" ((r1 :: r2 :: rs).map Prod.snd), 1) := rfl
    refine ⟨?_, ?_, ?_⟩
    · rw [hred]
      cases hsyn : synth (formatResponses (r1 :: r2 :: rs)) q <;> simp [hsyn]
    · intro r hr
      simp at hr
    · intro _ herr
      rw [hred, herr]

/-- Witness for C4: with two per-domain answers and a throwing synthesis
call, the combined answer is the blank-line concatenation of the two
answers (and one synthesis call was issued). -/
theorem C4_synthesis_witness :
    (combine_domain_responses (fun _ _ => Except.error ())
        [(.distribution_finance, "a1"), (.compliance, "a2")] "q").1
      = String.intercalate "\n\n"
          ([((BankingDomain.distribution_finance, "a1") : BankingDomain × String),
            (.compliance, "a2")].map Prod.snd) :=
  (C4_synthesis (fun _ _ => Except.error ())
      [(.distribution_finance, "a1"), (.compliance, "a2")] "q"
      (by decide)).2.2 (by decide) rfl

/-- C5: for any non-empty query and any preferred-domain selection, when no
domain's search returns any document, `query_knowledge_base` returns the
fixed fallback answer beginning "I don't have sufficient information", an
empty sources list, confidence exactly 0, an empty consulted list, and
leaves the system state untouched. -/
theorem C5_zero_hit_fallback (S : SystemState) (O : Oracles) (q u : String)
    (pd : Option (List BankingDomain)) (c : Option String) (now : Nat)
    (hq : q ≠ "") (hsearch : ∀ d, O.search d q = Except.ok []) :
    query_knowledge_base S O q u pd c now
      = ({ answer := noInfoAnswer, sources := [], confidence := 0,
           domains_consulted := [], timestamp := now }, S, ⟨[], 0⟩)
    ∧ noInfoAnswer
        = "I don't have sufficient information"
          ++ " to answer your question. Please try rephrasing or contact a human expert." := by
  constructor
  · have h0 : retrieveDocs S O q (selectDomains pd) = ([], []) :=
      retrieveDocs_all_nil S O q hsearch _
    simp [query_knowledge_base, h0]
  · rfl

/-- Witness for C5: a concrete query against a system whose searches all
come back empty returns the fallback response unchanged. -/
theorem C5_zero_hit_fallback_witness :
    query_knowledge_base twoDomState noHitOracles "What is a Letter of Credit?" "u1" none none 7
      = ({ answer := noInfoAnswer, sources := [], confidence := 0,
           domains_consulted := [], timestamp := 7 }, twoDomState, ⟨[], 0⟩)
    ∧ noInfoAnswer
        = "I don't have sufficient information"
          ++ " to answer your question. Please try rephrasing or contact a human expert." :=
  C5_zero_hit_fallback twoDomState noHitOracles "What is a Letter of Credit?" "u1" none none 7
    (by decide) (fun _ => rfl)

/-- C6: when hits were retrieved but every per-domain completion call
throws, the final answer is the fixed "unable to generate a response"
string, while the confidence is still computed from the hit and domain
counts and is strictly positive; the query completes normally. -/
theorem C6_all_generation_fail (S : SystemState) (O : Oracles) (q u : String)
    (pd : Option (List BankingDomain)) (c : Option String) (now : Nat)
    (hne : (retrieveDocs S O q (selectDomains pd)).1 ≠ [])
    (hgen : ∀ d, O.gen d (contextText (retrieveDocs S O q (selectDomains pd)).1) q
        = Except.error ()) :
    (query_knowledge_base S O q u pd c now).1.answer = noGenAnswer
    ∧ (query_knowledge_base S O q u pd c now).1.confidence
        = confFormula (retrieveDocs S O q (selectDomains pd)).1.length
            (retrieveDocs S O q (selectDomains pd)).2.length
    ∧ 0 < (query_knowledge_base S O q u pd c now).1.confidence := by
  have hrun : (runGeneration O q (contextText (retrieveDocs S O q (selectDomains pd)).1)
      (retrieveDocs S O q (selectDomains pd)).2).1 = [] :=
    runGeneration_all_fail O q _ hgen _
  have hconf : (query_knowledge_base S O q u pd c now).1.confidence
      = confFormula (retrieveDocs S O q (selectDomains pd)).1.length
          (retrieveDocs S O q (selectDomains pd)).2.length := by
    simp only [query_knowledge_base]
    rw [if_neg hne]
    rfl
  refine ⟨?_, hconf, ?_⟩
  · simp only [query_knowledge_base]
    rw [if_neg hne]
    simp [hrun]
  · rw [hconf]
    have hlen : 0 < (retrieveDocs S O q (selectDomains pd)).1.length :=
      List.length_pos.mpr hne
    have hlenQ : (1 : ℚ) ≤ ((retrieveDocs S O q (selectDomains pd)).1.length : ℚ) := by
      exact_mod_cast hlen
    have hdomQ : (0 : ℚ) ≤ ((retrieveDocs S O q (selectDomains pd)).2.length : ℚ) := by
      positivity
    apply lt_min
    · norm_num
    · nlinarith

/-- Witness for C6: with two hits from two domains and every completion call
throwing, the answer is the fixed apology string and the confidence is
`min(0.9, 0.4) = 0.4 > 0`. -/
theorem C6_all_generation_fail_witness :
    (query_knowledge_base twoDomState genFailOracles "q" "u" none none 0).1.answer = noGenAnswer
    ∧ (query_knowledge_base twoDomState genFailOracles "q" "u" none none 0).1.confidence
        = confFormula (retrieveDocs twoDomState genFailOracles "q" (selectDomains none)).1.length
            (retrieveDocs twoDomState genFailOracles "q" (selectDomains none)).2.length
    ∧ 0 < (query_knowledge_base twoDomState genFailOracles "q" "u" none none 0).1.confidence :=
  C6_all_generation_fail twoDomState genFailOracles "q" "u" none none 0
    (by decide) (fun _ => rfl)

/-- C7: a domain whose similarity search throws is handled for that domain
alone, exactly like a domain whose search returns no documents: it is never
added to the consulted list, retrieval over any domain selection equals
retrieval with that domain removed from the selection (so it contributes no
hits and no sources and the exception never propagates), and the domain is
absent from the returned response's consulted list. -/
theorem C7_per_domain_failure (S : SystemState) (O : Oracles) (q u : String)
    (pd : Option (List BankingDomain)) (c : Option String) (now : Nat)
    (d : BankingDomain)
    (hfail : O.search d q = Except.error () ∨ O.search d q = Except.ok []) :
    (∀ doms : List BankingDomain,
      d ∉ (retrieveDocs S O q doms).2
      ∧ retrieveDocs S O q doms
          = retrieveDocs S O q (doms.filter (fun x => x ≠ d)))
    ∧ d ∉ (query_knowledge_base S O q u pd c now).1.domains_consulted := by
  constructor
  · intro doms
    exact ⟨retrieveDocs_not_mem S O q d hfail doms,
           retrieveDocs_filter S O q d hfail doms⟩
  · by_cases hnil : (retrieveDocs S O q (selectDomains pd)).1 = []
    · simp [query_knowledge_base, hnil]
    · simp only [query_knowledge_base]
      rw [if_neg hnil]
      exact retrieveDocs_not_mem S O q d hfail _
  

/-- Witness for C7: with the compliance search throwing, compliance is
absent from the consulted list of the returned response. -/
theorem C7_per_domain_failure_witness :
    BankingDomain.compliance ∉
      (query_knowledge_base twoDomState searchFailOracles "q" "u" none none 0).1.domains_consulted :=
  (C7_per_domain_failure twoDomState searchFailOracles "q" "u" none none 0
      .compliance (Or.inl rfl)).2

/-- C8: the `POST /documents` endpoint answers an unregistered domain string
with HTTP 400 and the enum validation message, leaving the whole system
state -- documents table, audit log and every store partition -- unchanged:
the domain is validated while the `KnowledgeDocument` is built, before
`add_knowledge_document` can perform any side effect. -/
theorem C8_unknown_domain (S : SystemState) (commitOk indexOk : Bool)
    (request : DocumentUploadRequest) (now : Nat)
    (h : parseDomain request.domain = none) :
    add_document S commitOk indexOk request now
      = ((400, "Invalid domain: '" ++ request.domain ++ "' is not a valid BankingDomain"), S) := by
  simp [add_document, h]

/-- Witness for C8: ingesting under the unregistered domain string
"banking" yields HTTP 400 with an unchanged state. -/
theorem C8_unknown_domain_witness :
    add_document emptyState true true
        { title := "T", content := "C", domain := "banking", source := "S", metadata := none } 3
      = ((400, "Invalid domain: '" ++ "banking" ++ "' is not a valid BankingDomain"), emptyState) :=
  C8_unknown_domain emptyState true true
    { title := "T", content := "C", domain := "banking", source := "S", metadata := none } 3
    (by decide)

/-- C9: when the database commit succeeds and the subsequent vector-store
add throws, `add_knowledge_document` returns `False`, yet the document row
stays durably appended to the documents table (the rollback issued after
the commit does not undo it), while every domain's searchable vectors are
exactly as before, so the document is absent from the retrieval index. -/
theorem C9_nonatomic_ingestion (S : SystemState) (document : KnowledgeDocument) :
    (add_knowledge_document S true false document).1 = false
    ∧ (add_knowledge_document S true false document).2.documents
        = S.documents ++ [docRowOf document]
    ∧ (add_knowledge_document S true false document).2.queryLogs = S.queryLogs
    ∧ ∀ d, vectorsOf (add_knowledge_document S true false document).2 d = vectorsOf S d := by
  refine ⟨rfl, ?_, ?_, ?_⟩
  · cases hs : S.stores document.domain <;>
      simp [add_knowledge_document, ensureStore, hs]
  · cases hs : S.stores document.domain <;>
      simp [add_knowledge_document, ensureStore, hs]
  · intro d
    cases hs : S.stores document.domain with
    | none =>
      by_cases hd : d = document.domain
      · subst hd
        simp [add_knowledge_document, ensureStore, hs, vectorsOf]
      · simp [add_knowledge_document, ensureStore, hs, vectorsOf, hd]
    | some v =>
      simp [add_knowledge_document, ensureStore, hs, vectorsOf]

/-- C10: the `context` argument of `query_knowledge_base` is never read, so
two invocations differing only in `context` return identical responses,
identical post-call states and identical call traces. -/
theorem C10_context_has_no_effect (S : SystemState) (O : Oracles) (q u : String)
    (pd : Option (List BankingDomain)) (c1 c2 : Option String) (now : Nat) :
    query_knowledge_base S O q u pd c1 now = query_knowledge_base S O q u pd c2 now := rfl
